import Mathlib

/-!
Verification of the cacao-leaf analysis core (`src/main.py`).

The repository's substantive logic is the function `analizar_hoja`
(src/main.py lines 32-205): it extracts scalar colour/texture features
from an uploaded leaf image and classifies them through an ordered
if/elif rule cascade.  The image-processing calls (PIL / OpenCV) are
foreign code; everything downstream of the extracted scalars is pure
arithmetic and branching, which we embed here over ℚ.  Python floats
are modelled as rationals; Python's `round` (banker's rounding) is
modelled with Mathlib's `round` (half away from zero upward), which
agrees with it everywhere except at exact half-ulp ties — no theorem
below depends on the direction of a tie.
-/

namespace CacaoLeaf

/-- The scalar features `analizar_hoja` computes from the image before the
decision logic runs (src/main.py lines 54-95): per-channel BGR means,
per-channel HSV means, the Canny texture score, the four mask-area ratios. -/
structure FeatureSet where
  rMean : ℚ
  gMean : ℚ
  bMean : ℚ
  hMean : ℚ
  sMean : ℚ
  vMean : ℚ
  textureScore : ℚ
  brownSpotArea : ℚ
  darkSpotArea : ℚ
  yellowArea : ℚ
  healthyGreenRatio : ℚ
  deriving DecidableEq

/-- Line 92: `saturation_avg = s_mean / 255`. -/
def saturationAvg (fs : FeatureSet) : ℚ := fs.sMean / 255

/-- Line 95: `total_damage = brown_spot_area + dark_spot_area + yellow_area`. -/
def totalDamage (fs : FeatureSet) : ℚ :=
  fs.brownSpotArea + fs.darkSpotArea + fs.yellowArea

/-- The ranges feature extraction guarantees (spec §4.2): every mask-area
ratio and the texture score lie in [0,1], the HSV channel means lie in the
channel ranges OpenCV produces (hue 0..180, saturation and value 0..255). -/
def ValidFeatureSet (fs : FeatureSet) : Prop :=
  0 ≤ fs.brownSpotArea ∧ fs.brownSpotArea ≤ 1 ∧
  0 ≤ fs.darkSpotArea ∧ fs.darkSpotArea ≤ 1 ∧
  0 ≤ fs.yellowArea ∧ fs.yellowArea ≤ 1 ∧
  0 ≤ fs.healthyGreenRatio ∧ fs.healthyGreenRatio ≤ 1 ∧
  0 ≤ fs.textureScore ∧ fs.textureScore ≤ 1 ∧
  0 ≤ fs.hMean ∧ fs.hMean ≤ 180 ∧
  0 ≤ fs.sMean ∧ fs.sMean ≤ 255 ∧
  0 ≤ fs.vMean ∧ fs.vMean ≤ 255

instance (fs : FeatureSet) : Decidable (ValidFeatureSet fs) := by
  unfold ValidFeatureSet; infer_instance

/-- What one branch of the cascade assigns (lines 98-101 initialise these;
each branch of lines 106-164 sets all four). -/
structure Decision where
  estadoGeneral : String
  posibleEnfermedad : String
  colorPrincipal : String
  confianza : ℚ
  deriving DecidableEq

/-- Branch 1 guard, lines 106-110: healthy leaf. -/
abbrev regla1Sana (fs : FeatureSet) : Prop :=
  fs.healthyGreenRatio > 65/100 ∧ fs.brownSpotArea < 8/100 ∧
    fs.darkSpotArea < 5/100 ∧ fs.yellowArea < 15/100 ∧ saturationAvg fs > 25/100

/-- Branch 2 guard, line 118: significant brown/dark spots (fungal). -/
abbrev regla2Fungica (fs : FeatureSet) : Prop :=
  fs.brownSpotArea > 12/100 ∨ fs.darkSpotArea > 10/100

/-- Branch 3 guard, line 125: moderate spots. -/
abbrev regla3Moderada (fs : FeatureSet) : Prop :=
  fs.brownSpotArea > 8/100 ∨ fs.darkSpotArea > 6/100

/-- Branch 4 guard, line 132: strong yellow presence. -/
abbrev regla4Amarilla (fs : FeatureSet) : Prop := fs.yellowArea > 25/100

/-- Branch 5 guard, line 139: irregular texture. -/
abbrev regla5Textura (fs : FeatureSet) : Prop := fs.textureScore > 30/100

/-- Branch 6 guard, line 146: low saturation and low value. -/
abbrev regla6Saturacion (fs : FeatureSet) : Prop :=
  saturationAvg fs < 20/100 ∧ fs.vMean < 100

/-- Branch 7 guard, line 153: intermediate signs. -/
abbrev regla7Intermedia (fs : FeatureSet) : Prop :=
  totalDamage fs > 10/100 ∨ fs.healthyGreenRatio < 50/100

/-- The cascade's guards in source order; index 7 is the final `else`
(line 160), whose guard is trivially true. -/
def predRegla : Fin 8 → FeatureSet → Prop
  | ⟨0, _⟩, fs => regla1Sana fs
  | ⟨1, _⟩, fs => regla2Fungica fs
  | ⟨2, _⟩, fs => regla3Moderada fs
  | ⟨3, _⟩, fs => regla4Amarilla fs
  | ⟨4, _⟩, fs => regla5Textura fs
  | ⟨5, _⟩, fs => regla6Saturacion fs
  | ⟨6, _⟩, fs => regla7Intermedia fs
  | ⟨7, _⟩, _ => True
  | ⟨_ + 8, h⟩, _ => absurd h (by omega)

instance (i : Fin 8) (fs : FeatureSet) : Decidable (predRegla i fs) :=
  match i with
  | ⟨0, _⟩ => inferInstanceAs (Decidable (regla1Sana fs))
  | ⟨1, _⟩ => inferInstanceAs (Decidable (regla2Fungica fs))
  | ⟨2, _⟩ => inferInstanceAs (Decidable (regla3Moderada fs))
  | ⟨3, _⟩ => inferInstanceAs (Decidable (regla4Amarilla fs))
  | ⟨4, _⟩ => inferInstanceAs (Decidable (regla5Textura fs))
  | ⟨5, _⟩ => inferInstanceAs (Decidable (regla6Saturacion fs))
  | ⟨6, _⟩ => inferInstanceAs (Decidable (regla7Intermedia fs))
  | ⟨7, _⟩ => inferInstanceAs (Decidable True)
  | ⟨_ + 8, h⟩ => absurd h (by omega)

/-- What each branch assigns to `estado_general`, `posible_enfermedad`,
`color_principal` and `confianza` (src/main.py lines 106-164, branch by
branch, in source order). -/
def salidaRegla : Fin 8 → FeatureSet → Decision
  | ⟨0, _⟩, fs =>
      ⟨"Sana", "Ninguna", "verde",
        min (95/100) (70/100 + fs.healthyGreenRatio * (25/100))⟩
  | ⟨1, _⟩, fs =>
      ⟨"Enfermedad fúngica", "Posible Moniliasis, Phytophthora o Antracnosis",
        "verde con manchas marrones",
        min (92/100) (65/100 + totalDamage fs * (15/10))⟩
  | ⟨2, _⟩, fs =>
      ⟨"Posible infección fúngica inicial", "Etapa temprana de hongo foliar o Cercospora",
        "verde con manchas leves", 70/100 + fs.brownSpotArea * 2⟩
  | ⟨3, _⟩, fs =>
      ⟨"Deficiencia nutricional", "Posible falta de nitrógeno o magnesio",
        "amarillento", 75/100 + fs.yellowArea * (6/10)⟩
  | ⟨4, _⟩, fs =>
      ⟨"Daño físico o plaga", "Posible ataque de insectos masticadores",
        "verde con bordes irregulares", 68/100 + fs.textureScore * (6/10)⟩
  | ⟨5, _⟩, _ =>
      ⟨"Estrés o envejecimiento", "Senescencia natural o estrés hídrico",
        "verde pálido", 70/100⟩
  | ⟨6, _⟩, fs =>
      ⟨"Posible estrés leve", "Monitorear evolución - síntomas no concluyentes",
        "verde variable", 60/100 + totalDamage fs * (8/10)⟩
  | ⟨7, _⟩, _ => ⟨"Sana", "Ninguna", "verde", 85/100⟩
  | ⟨_ + 8, h⟩, _ => absurd h (by omega)

/-- The index of the first branch whose guard holds: the if/elif chain of
lines 106-164 reaches branch `i` exactly when guards `0..i-1` failed. -/
def primeraRegla (fs : FeatureSet) : Fin 8 :=
  if regla1Sana fs then 0
  else if regla2Fungica fs then 1
  else if regla3Moderada fs then 2
  else if regla4Amarilla fs then 3
  else if regla5Textura fs then 4
  else if regla6Saturacion fs then 5
  else if regla7Intermedia fs then 6
  else 7

/-- The decision block, src/main.py lines 103-164: an if/elif chain over the
guards in source order; the `else` of line 160 closes it. -/
def decidir (fs : FeatureSet) : Decision :=
  if regla1Sana fs then salidaRegla 0 fs
  else if regla2Fungica fs then salidaRegla 1 fs
  else if regla3Moderada fs then salidaRegla 2 fs
  else if regla4Amarilla fs then salidaRegla 3 fs
  else if regla5Textura fs then salidaRegla 4 fs
  else if regla6Saturacion fs then salidaRegla 5 fs
  else if regla7Intermedia fs then salidaRegla 6 fs
  else salidaRegla 7 fs

/-- Python's `round(q, n)`: scale, round to an integer, scale back.  Python
rounds half to even, Mathlib's `round` rounds half up; they agree whenever
`q * 10^n` is not an exact half-integer. -/
def redondear (n : ℕ) (q : ℚ) : ℚ := (round (q * 10 ^ n) : ℚ) / 10 ^ n

/-- Line 167: `probabilidad = round(min(0.98, max(0.50, confianza)), 2)`. -/
def probabilidad (fs : FeatureSet) : ℚ :=
  redondear 2 (min (98/100) (max (50/100) (decidir fs).confianza))

/-- The `caracteristicas` mapping, lines 170-176.  Its first field is the
`color_principal` the fired branch assigned; the other four are computed
from the features by their own thresholds. -/
structure Caracteristicas where
  colorPrincipal : String
  manchas : String
  borde : String
  textura : String
  deformaciones : Bool
  deriving DecidableEq

/-- Lines 170-176, with `color` the `color_principal` set by the cascade. -/
def caracteristicas (fs : FeatureSet) (color : String) : Caracteristicas :=
  ⟨color,
    if fs.brownSpotArea > 8/100 then "circulares marrones" else "no significativas",
    if fs.textureScore > 25/100 then "irregular" else "regular",
    if fs.vMean < 80 then "seca/necrótica" else "normal",
    decide (fs.textureScore > 30/100)⟩

/-- The optional `debug` sub-object, lines 188-197: the raw feature values
rounded to a fixed precision. -/
structure DebugInfo where
  rMean : ℚ
  gMean : ℚ
  bMean : ℚ
  brownSpotArea : ℚ
  darkSpotArea : ℚ
  yellowArea : ℚ
  healthyGreenRatio : ℚ
  textureScore : ℚ
  saturationAvg : ℚ
  hMean : ℚ
  sMean : ℚ
  vMean : ℚ
  deriving DecidableEq

/-- Lines 188-197: RGB and HSV means rounded to 2 decimals, every ratio and
score rounded to 4. -/
def debugInfo (fs : FeatureSet) : DebugInfo :=
  ⟨redondear 2 fs.rMean, redondear 2 fs.gMean, redondear 2 fs.bMean,
    redondear 4 fs.brownSpotArea, redondear 4 fs.darkSpotArea,
    redondear 4 fs.yellowArea, redondear 4 fs.healthyGreenRatio,
    redondear 4 fs.textureScore, redondear 4 (saturationAvg fs),
    redondear 2 fs.hMean, redondear 2 fs.sMean, redondear 2 fs.vMean⟩

/-- The dictionary `analizar_hoja` returns, lines 179-197. -/
structure Resultado where
  estadoGeneral : String
  probabilidad : ℚ
  caracteristicasDetectadas : Caracteristicas
  posibleEnfermedad : String
  debug : Option DebugInfo
  deriving DecidableEq

/-- Result assembly, lines 166-200: the fired branch's category, cause and
colour, the clamped and rounded confidence, the attribute bundle, and the
debug sub-object exactly when the flag is set. -/
def analizarHoja (fs : FeatureSet) (debug : Bool) : Resultado :=
  ⟨(decidir fs).estadoGeneral, probabilidad fs,
    caracteristicas fs (decidir fs).colorPrincipal,
    (decidir fs).posibleEnfermedad,
    if debug then some (debugInfo fs) else none⟩

/-- Rule `i` fires on `fs`: its guard holds and every earlier guard fails.
This is the reach condition of branch `i` of the if/elif chain. -/
def ReglaDispara (fs : FeatureSet) (i : Fin 8) : Prop :=
  predRegla i fs ∧ ∀ j : Fin 8, j < i → ¬ predRegla j fs

/-- The result `analizar_hoja` may return for features `fs` and flag `dbg`,
as a relation: some rule fires and the result is assembled from its
decision.  `analizarHoja` is proved sound and deterministic against it. -/
def Produce (fs : FeatureSet) (dbg : Bool) (r : Resultado) : Prop :=
  ∃ i : Fin 8, ReglaDispara fs i ∧
    r = ⟨(salidaRegla i fs).estadoGeneral,
          redondear 2 (min (98/100) (max (50/100) (salidaRegla i fs).confianza)),
          caracteristicas fs (salidaRegla i fs).colorPrincipal,
          (salidaRegla i fs).posibleEnfermedad,
          if dbg then some (debugInfo fs) else none⟩

/-- The failures that can leave `analizar_hoja` and reach the endpoint's
handlers (src/main.py lines 245-255): PIL's `UnidentifiedImageError` raised
by `Image.open`, or any other exception carried with its message `str(e)`. -/
inductive FalloAnalisis where
  | imagenNoIdentificada : FalloAnalisis
  | interno : String → FalloAnalisis
  deriving DecidableEq

/-- A decoded image as `Image.open` yields it: its dimensions and PIL mode. -/
structure ImagenDecodificada where
  ancho : ℕ
  alto : ℕ
  modo : String
  deriving DecidableEq

/-- src/main.py lines 39-51: everything the code does between a successful
decode and the first feature measurement — only the conversion to RGB mode
(lines 43-44).  The code never reads `image.size` to reject an image: no
dimension test of any kind occurs, so this step cannot fail. -/
def validarTrasDecodificar (img : ImagenDecodificada) :
    Except FalloAnalisis ImagenDecodificada :=
  Except.ok { img with modo := "RGB" }

/-- The exception envelope of `analizar_hoja` (lines 36 and 202-205): the
body runs in a `try`; the `except` clause only logs and re-raises, so a
failure propagates unchanged and no partial result is built.  `extraccion`
stands for the outcome of the foreign decode/extraction code: `ok fs` when
it produced the features `fs`, `error e` when it raised `e`. -/
def analizarHojaConErrores (extraccion : Except FalloAnalisis FeatureSet)
    (dbg : Bool) : Except FalloAnalisis Resultado :=
  match extraccion with
  | Except.error e => Except.error e
  | Except.ok fs => Except.ok (analizarHoja fs dbg)

/-- An HTTP response body: an error object or a diagnosis. -/
inductive CuerpoRespuesta where
  | error : String → CuerpoRespuesta
  | resultado : Resultado → CuerpoRespuesta
  deriving DecidableEq

/-- An HTTP response: status code and JSON body. -/
structure Respuesta where
  statusCode : ℕ
  cuerpo : CuerpoRespuesta
  deriving DecidableEq

/-- The endpoint `POST /analizar-hoja` (lines 222-255): the content-type
gate, the empty-file gate, then `analizar_hoja`; `UnidentifiedImageError`
maps to a 400 and any other exception to a 500 whose body is the fixed
Spanish prefix followed by `str(e)` and nothing else — the traceback is
only logged. -/
def analizarHojaEndpoint (contentType : Option String) (numBytes : ℕ)
    (extraccion : Except FalloAnalisis FeatureSet) (dbg : Bool) : Respuesta :=
  if (match contentType with
      | some ct => !(ct.startsWith "image/")
      | none => false) then
    ⟨400, CuerpoRespuesta.error "El archivo debe ser una imagen"⟩
  else if numBytes = 0 then
    ⟨400, CuerpoRespuesta.error "El archivo está vacío"⟩
  else
    match analizarHojaConErrores extraccion dbg with
    | Except.ok r => ⟨200, CuerpoRespuesta.resultado r⟩
    | Except.error FalloAnalisis.imagenNoIdentificada =>
        ⟨400, CuerpoRespuesta.error
          "No se pudo procesar la imagen. Asegúrate de que sea un archivo de imagen válido"⟩
    | Except.error (FalloAnalisis.interno msg) =>
        ⟨500, CuerpoRespuesta.error ("Error al procesar la imagen: " ++ msg)⟩

/-- The seven `estado_general` strings the cascade's branches assign
(src/main.py lines 112, 119, 126, 133, 140, 147, 154, 161). -/
def categoriasDelCodigo : List String :=
  ["Sana", "Enfermedad fúngica", "Posible infección fúngica inicial",
   "Deficiencia nutricional", "Daño físico o plaga", "Estrés o envejecimiento",
   "Posible estrés leve"]

/-- Modelled from the spec: the closed status vocabulary of §3 — "Healthy,
Nutrient-deficiency, Fungal, Water-stress, Inconclusive, Unknown" — rendered
over the status strings the code uses, so that membership can be compared:
"Sana" renders Healthy; "Enfermedad fúngica" and "Posible infección fúngica
inicial" render Fungal; "Deficiencia nutricional" renders
Nutrient-deficiency; "Estrés o envejecimiento" (the branch whose cause is
"Senescencia natural o estrés hídrico") renders Water-stress; "Posible
estrés leve" (the inconclusive monitoring branch) renders Inconclusive; no
string of the code renders Unknown.  The code's pest/physical-damage label
"Daño físico o plaga" answers to none of the six spec categories and is
deliberately absent. -/
def vocabularioSpec : List String :=
  ["Sana", "Enfermedad fúngica", "Posible infección fúngica inicial",
   "Deficiencia nutricional", "Estrés o envejecimiento", "Posible estrés leve"]

/-- A plainly healthy leaf: high green ratio, negligible spots, saturated. -/
def fsSana : FeatureSet :=
  { rMean := 60, gMean := 120, bMean := 40, hMean := 60, sMean := 120,
    vMean := 150, textureScore := 1/10, brownSpotArea := 1/50,
    darkSpotArea := 1/100, yellowArea := 1/20, healthyGreenRatio := 4/5 }

/-- A leaf satisfying the guards of both rule 2 (brown 0.20 > 0.12) and
rule 4 (yellow 0.30 > 0.25) while rule 1 fails (green ratio 0.10). -/
def fsFungicaAmarilla : FeatureSet :=
  { rMean := 110, gMean := 100, bMean := 50, hMean := 30, sMean := 80,
    vMean := 150, textureScore := 1/10, brownSpotArea := 1/5,
    darkSpotArea := 0, yellowArea := 3/10, healthyGreenRatio := 1/10 }

/-- A leaf reaching rule 5: texture 0.40 > 0.30 while rules 1-4 all fail
(green 0.60, brown 0.05, dark 0.04, yellow 0.10). -/
def fsTextura : FeatureSet :=
  { rMean := 80, gMean := 110, bMean := 50, hMean := 50, sMean := 100,
    vMean := 150, textureScore := 2/5, brownSpotArea := 1/20,
    darkSpotArea := 1/25, yellowArea := 1/10, healthyGreenRatio := 3/5 }

/-- A healthy leaf whose secondary thresholds all sit on the quiet side;
rule 1 fires and assigns the colour "verde". -/
def fsVerde : FeatureSet :=
  { rMean := 60, gMean := 120, bMean := 40, hMean := 60, sMean := 100,
    vMean := 150, textureScore := 1/10, brownSpotArea := 0,
    darkSpotArea := 0, yellowArea := 0, healthyGreenRatio := 7/10 }

/-- `fsVerde` with the yellow area raised to 0.30: every secondary threshold
answers the same, but rule 1 now fails on yellow and rule 4 fires,
assigning the colour "amarillento". -/
def fsAmarilla : FeatureSet :=
  { rMean := 60, gMean := 120, bMean := 40, hMean := 60, sMean := 100,
    vMean := 150, textureScore := 1/10, brownSpotArea := 0,
    darkSpotArea := 0, yellowArea := 3/10, healthyGreenRatio := 7/10 }

/-- Dark spots at 0.08 with no brown spots: rules 1 and 2 fail, rule 3
fires on its dark-spot disjunct alone. -/
def fsOscura : FeatureSet :=
  { rMean := 70, gMean := 90, bMean := 50, hMean := 50, sMean := 100,
    vMean := 150, textureScore := 1/10, brownSpotArea := 0,
    darkSpotArea := 2/25, yellowArea := 0, healthyGreenRatio := 3/10 }

lemma decidir_eq_primeraRegla (fs : FeatureSet) :
    decidir fs = salidaRegla (primeraRegla fs) fs := by
  unfold decidir primeraRegla
  split_ifs <;> rfl

lemma reglaDispara_primeraRegla (fs : FeatureSet) :
    ReglaDispara fs (primeraRegla fs) := by
  unfold ReglaDispara primeraRegla
  split_ifs with h1 h2 h3 h4 h5 h6 h7 <;>
    refine ⟨?_, fun j hj => ?_⟩ <;>
    first
    | exact h1
    | exact h2
    | exact h3
    | exact h4
    | exact h5
    | exact h6
    | exact h7
    | trivial
    | (fin_cases j <;>
        first
        | exact absurd hj (by decide)
        | exact h1
        | exact h2
        | exact h3
        | exact h4
        | exact h5
        | exact h6
        | exact h7)

lemma primeraRegla_le (fs : FeatureSet) (i : Fin 8) (hi : predRegla i fs) :
    primeraRegla fs ≤ i := by
  by_contra h
  push_neg at h
  exact (reglaDispara_primeraRegla fs).2 i h hi

lemma reglaDispara_unique {fs : FeatureSet} {i j : Fin 8}
    (hi : ReglaDispara fs i) (hj : ReglaDispara fs j) : i = j := by
  rcases lt_trichotomy i j with h | h | h
  · exact absurd hi.1 (hj.2 i h)
  · exact h
  · exact absurd hj.1 (hi.2 j h)

lemma produce_analizarHoja (fs : FeatureSet) (dbg : Bool) :
    Produce fs dbg (analizarHoja fs dbg) :=
  ⟨primeraRegla fs, reglaDispara_primeraRegla fs, by
    simp [analizarHoja, probabilidad, decidir_eq_primeraRegla fs]⟩

lemma redondear_dos_mem {q : ℚ} (h1 : 50/100 ≤ q) (h2 : q ≤ 98/100) :
    50/100 ≤ redondear 2 q ∧ redondear 2 q ≤ 98/100 := by
  have hlo : (50 : ℤ) ≤ round (q * 10 ^ 2) := by
    rw [round_eq]
    refine Int.le_floor.mpr ?_
    push_cast
    linarith
  have hhi : round (q * 10 ^ 2) ≤ 98 := by
    rw [round_eq]
    have : q * 10 ^ 2 + 1 / 2 < 99 := by linarith
    have h99 := Int.floor_lt.mpr (by push_cast; linarith : q * 10 ^ 2 + 1 / 2 < ((99 : ℤ) : ℚ))
    omega
  have hlo' : (50 : ℚ) ≤ (round (q * 10 ^ 2) : ℚ) := by exact_mod_cast hlo
  have hhi' : ((round (q * 10 ^ 2) : ℤ) : ℚ) ≤ 98 := by exact_mod_cast hhi
  constructor
  · rw [redondear, div_le_div_iff₀ (by norm_num) (by norm_num)]
    linarith
  · rw [redondear, div_le_div_iff₀ (by norm_num) (by norm_num)]
    linarith

/-- C1: the rule cascade is first-match-wins over the source's strict
priority order.  Whenever the guards of rules `i` and `j` (`i < j`) both
hold on a FeatureSet, the rule that fires is no later than `i`, the
decision returned is exactly that of the first rule whose guard holds —
so no later rule's outcome is ever produced once an earlier guard holds —
and when `i` is the earliest holding guard the returned category, cause,
colour and confidence are rule `i`'s own. -/
theorem cascada_primera_coincidencia (fs : FeatureSet) (i j : Fin 8)
    (_hij : i < j) (hi : predRegla i fs) (_hj : predRegla j fs) :
    primeraRegla fs ≤ i ∧ decidir fs = salidaRegla (primeraRegla fs) fs ∧
      ((∀ k : Fin 8, k < i → ¬ predRegla k fs) → decidir fs = salidaRegla i fs) := by
  refine ⟨primeraRegla_le fs i hi, decidir_eq_primeraRegla fs, fun hmin => ?_⟩
  have : primeraRegla fs = i :=
    reglaDispara_unique (reglaDispara_primeraRegla fs) ⟨hi, hmin⟩
  rw [decidir_eq_primeraRegla fs, this]

/-- Witness for C1: `fsFungicaAmarilla` satisfies both the strong-fungal
guard (rule 2) and the yellow-deficiency guard (rule 4); rule 2 fires. -/
theorem cascada_primera_coincidencia_witness :
    primeraRegla fsFungicaAmarilla ≤ 1 ∧
      decidir fsFungicaAmarilla =
        salidaRegla (primeraRegla fsFungicaAmarilla) fsFungicaAmarilla ∧
      ((∀ k : Fin 8, k < 1 → ¬ predRegla k fsFungicaAmarilla) →
        decidir fsFungicaAmarilla = salidaRegla 1 fsFungicaAmarilla) :=
  cascada_primera_coincidencia fsFungicaAmarilla 1 3 (by decide)
    (by show regla2Fungica fsFungicaAmarilla; norm_num [regla2Fungica, fsFungicaAmarilla])
    (by show regla4Amarilla fsFungicaAmarilla; norm_num [regla4Amarilla, fsFungicaAmarilla])

/-- C2 as stated is false: the valid FeatureSet `fsTextura` reaches rule 5
and is labelled "Daño físico o plaga" (physical damage or pest), a status
outside the spec's six-category vocabulary. -/
theorem estado_fuera_del_vocabulario :
    ValidFeatureSet fsTextura ∧
      (analizarHoja fsTextura false).estadoGeneral = "Daño físico o plaga" ∧
      "Daño físico o plaga" ∉ vocabularioSpec := by
  refine ⟨by norm_num [ValidFeatureSet, fsTextura], ?_, by simp [vocabularioSpec]⟩
  norm_num [analizarHoja, decidir, regla1Sana, regla2Fungica, regla3Moderada,
    regla4Amarilla, regla5Textura, saturationAvg, fsTextura, salidaRegla]

/-- C2 amended: for every valid FeatureSet the cascade returns exactly one
status, that status lies in the code's fixed seven-label vocabulary — which
adds the physical-damage/pest label "Daño físico o plaga" to the spec's
six categories — and the cascade never raises: fed an extracted FeatureSet,
`analizar_hoja` always returns a diagnosis. -/
theorem estado_en_categorias (fs : FeatureSet) (dbg : Bool)
    (_hv : ValidFeatureSet fs) :
    (analizarHoja fs dbg).estadoGeneral ∈ categoriasDelCodigo ∧
      analizarHojaConErrores (Except.ok fs) dbg =
        Except.ok (analizarHoja fs dbg) := by
  refine ⟨?_, rfl⟩
  have h : ∀ i : Fin 8, (salidaRegla i fs).estadoGeneral ∈ categoriasDelCodigo := by
    intro i
    fin_cases i <;> simp [salidaRegla, categoriasDelCodigo]
  simpa [analizarHoja, decidir_eq_primeraRegla] using h (primeraRegla fs)

/-- Witness for C2 (amended) at the valid FeatureSet `fsSana`. -/
theorem estado_en_categorias_witness :
    (analizarHoja fsSana true).estadoGeneral ∈ categoriasDelCodigo ∧
      analizarHojaConErrores (Except.ok fsSana) true =
        Except.ok (analizarHoja fsSana true) :=
  estado_en_categorias fsSana true (by norm_num [ValidFeatureSet, fsSana])

/-- C3: the returned `probabilidad` is the fired rule's confidence formula
clamped into [0.50, 0.98] and then rounded to two decimals (an integer
number of hundredths); in particular it always lies in [0.50, 0.98], even
for rules whose raw formula is uncapped. -/
theorem probabilidad_acotada_redondeada (fs : FeatureSet) :
    probabilidad fs =
        redondear 2
          (min (98/100) (max (50/100) (salidaRegla (primeraRegla fs) fs).confianza)) ∧
      50/100 ≤ probabilidad fs ∧ probabilidad fs ≤ 98/100 ∧
      ∃ k : ℤ, probabilidad fs = (k : ℚ) / 100 := by
  have heq : probabilidad fs =
      redondear 2
        (min (98/100) (max (50/100) (salidaRegla (primeraRegla fs) fs).confianza)) := by
    rw [probabilidad, decidir_eq_primeraRegla]
  have h1 : 50/100 ≤ min (98/100) (max (50/100) (salidaRegla (primeraRegla fs) fs).confianza) :=
    le_min (by norm_num) (le_max_left _ _)
  have h2 : min (98/100) (max (50/100) (salidaRegla (primeraRegla fs) fs).confianza) ≤ 98/100 :=
    min_le_left _ _
  obtain ⟨hlo, hhi⟩ := redondear_dos_mem h1 h2
  refine ⟨heq, by rw [heq]; exact hlo, by rw [heq]; exact hhi, ?_⟩
  refine ⟨round (min (98/100) (max (50/100) (salidaRegla (primeraRegla fs) fs).confianza) * 10 ^ 2), ?_⟩
  rw [heq, redondear]
  norm_num

/-- C4 as stated is false: a decoded 10×10 image is not rejected — it
passes to feature extraction with no failure of any kind. -/
theorem imagen_pequena_no_rechazada :
    validarTrasDecodificar ⟨10, 10, "RGB"⟩ = Except.ok ⟨10, 10, "RGB"⟩ := rfl

/-- C4 amended: this revision enforces no minimum dimension.  Between a
successful decode and feature extraction the code only normalises the mode
to RGB; every decoded image, however small, proceeds to feature extraction
and yields a diagnosis, and no TooSmallError-kind failure exists. -/
theorem sin_minimo_de_dimensiones (img : ImagenDecodificada) :
    validarTrasDecodificar img = Except.ok { img with modo := "RGB" } := rfl

/-- C5: an unexpected failure inside `analizar_hoja` is re-raised unmasked,
yielding no partial diagnosis, and the endpoint maps it to a generic 500
server-error response whose body is only the short fixed prefix followed by
the exception's message. -/
theorem fallo_interno_propagado (msg : String) (dbg : Bool) (n : ℕ) (hn : n ≠ 0) :
    analizarHojaConErrores (Except.error (FalloAnalisis.interno msg)) dbg =
        Except.error (FalloAnalisis.interno msg) ∧
      analizarHojaEndpoint none n (Except.error (FalloAnalisis.interno msg)) dbg =
        ⟨500, CuerpoRespuesta.error ("Error al procesar la imagen: " ++ msg)⟩ := by
  exact ⟨rfl, by simp [analizarHojaEndpoint, analizarHojaConErrores, hn]⟩

/-- Witness for C5 at a concrete 4-byte upload failing with message "boom". -/
theorem fallo_interno_propagado_witness :
    analizarHojaConErrores (Except.error (FalloAnalisis.interno "boom")) false =
        Except.error (FalloAnalisis.interno "boom") ∧
      analizarHojaEndpoint none 4 (Except.error (FalloAnalisis.interno "boom")) false =
        ⟨500, CuerpoRespuesta.error ("Error al procesar la imagen: " ++ "boom")⟩ :=
  fallo_interno_propagado "boom" false 4 (by decide)

/-- C6 as stated is false: `fsVerde` and `fsAmarilla` agree on every
secondary threshold, so their spot, edge and texture descriptions and
deformation flags coincide — yet different rules fire (healthy versus
nutrient-deficiency) and the bundles differ in the dominant-colour
description, which each branch assigns itself. -/
theorem color_principal_depende_de_la_regla :
    (analizarHoja fsVerde false).estadoGeneral ≠
        (analizarHoja fsAmarilla false).estadoGeneral ∧
      (analizarHoja fsVerde false).caracteristicasDetectadas.manchas =
        (analizarHoja fsAmarilla false).caracteristicasDetectadas.manchas ∧
      (analizarHoja fsVerde false).caracteristicasDetectadas.borde =
        (analizarHoja fsAmarilla false).caracteristicasDetectadas.borde ∧
      (analizarHoja fsVerde false).caracteristicasDetectadas.textura =
        (analizarHoja fsAmarilla false).caracteristicasDetectadas.textura ∧
      (analizarHoja fsVerde false).caracteristicasDetectadas.deformaciones =
        (analizarHoja fsAmarilla false).caracteristicasDetectadas.deformaciones ∧
      (analizarHoja fsVerde false).caracteristicasDetectadas.colorPrincipal ≠
        (analizarHoja fsAmarilla false).caracteristicasDetectadas.colorPrincipal := by
  norm_num [analizarHoja, caracteristicas, decidir, regla1Sana, regla2Fungica,
    regla3Moderada, regla4Amarilla, saturationAvg, fsVerde, fsAmarilla, salidaRegla]
  decide

/-- C6 amended: the spot, edge and texture descriptions and the deformation
flag are each determined by their own secondary threshold on the
FeatureSet, independent of which top-level rule fired; the dominant-colour
description, however, is not — it is the constant string the fired branch
assigned. -/
theorem caracteristicas_secundarias_independientes (fs fs' : FeatureSet)
    (c c' : String) (dbg : Bool)
    (hm : fs.brownSpotArea > 8/100 ↔ fs'.brownSpotArea > 8/100)
    (hb : fs.textureScore > 25/100 ↔ fs'.textureScore > 25/100)
    (ht : fs.vMean < 80 ↔ fs'.vMean < 80)
    (hd : fs.textureScore > 30/100 ↔ fs'.textureScore > 30/100) :
    ((caracteristicas fs c).manchas = (caracteristicas fs' c').manchas ∧
      (caracteristicas fs c).borde = (caracteristicas fs' c').borde ∧
      (caracteristicas fs c).textura = (caracteristicas fs' c').textura ∧
      (caracteristicas fs c).deformaciones = (caracteristicas fs' c').deformaciones) ∧
      (analizarHoja fs dbg).caracteristicasDetectadas.colorPrincipal =
        (salidaRegla (primeraRegla fs) fs).colorPrincipal := by
  constructor
  · refine ⟨?_, ?_, ?_, ?_⟩ <;> simp only [caracteristicas]
    · rw [if_congr hm rfl rfl]
    · rw [if_congr hb rfl rfl]
    · rw [if_congr ht rfl rfl]
    · exact decide_eq_decide.mpr hd
  · simp [analizarHoja, caracteristicas, decidir_eq_primeraRegla]

/-- Witness for C6 (amended) at `fsVerde` and `fsAmarilla`, whose secondary
thresholds agree. -/
theorem caracteristicas_secundarias_independientes_witness :
    ((caracteristicas fsVerde "verde").manchas =
        (caracteristicas fsAmarilla "amarillento").manchas ∧
      (caracteristicas fsVerde "verde").borde =
        (caracteristicas fsAmarilla "amarillento").borde ∧
      (caracteristicas fsVerde "verde").textura =
        (caracteristicas fsAmarilla "amarillento").textura ∧
      (caracteristicas fsVerde "verde").deformaciones =
        (caracteristicas fsAmarilla "amarillento").deformaciones) ∧
      (analizarHoja fsVerde false).caracteristicasDetectadas.colorPrincipal =
        (salidaRegla (primeraRegla fsVerde) fsVerde).colorPrincipal :=
  caracteristicas_secundarias_independientes fsVerde fsAmarilla "verde" "amarillento"
    false (by norm_num [fsVerde, fsAmarilla]) (by norm_num [fsVerde, fsAmarilla])
    (by norm_num [fsVerde, fsAmarilla]) (by norm_num [fsVerde, fsAmarilla])

/-- C7: whenever the computed brown-spot area exceeds the fungal threshold
0.12, the returned category is the fungal rule's — the only higher-priority
rule (healthy) requires a brown area below 0.08 and cannot fire. -/
theorem marron_supera_umbral_fungico (fs : FeatureSet) (dbg : Bool)
    (h : fs.brownSpotArea > 12/100) :
    (analizarHoja fs dbg).estadoGeneral = "Enfermedad fúngica" := by
  have h1 : ¬ regla1Sana fs := fun hr => absurd hr.2.1 (by linarith)
  have h2 : regla2Fungica fs := Or.inl h
  show (decidir fs).estadoGeneral = "Enfermedad fúngica"
  unfold decidir
  rw [if_neg h1, if_pos h2]
  rfl

/-- Witness for C7 at `fsFungicaAmarilla`, whose brown-spot area is 0.20. -/
theorem marron_supera_umbral_fungico_witness :
    (analizarHoja fsFungicaAmarilla true).estadoGeneral = "Enfermedad fúngica" :=
  marron_supera_umbral_fungico fsFungicaAmarilla true (by norm_num [fsFungicaAmarilla])

/-- C8: the analysis is deterministic — any two results produced for the
same FeatureSet with the same debug flag are equal, and equal to the one
result `analizarHoja` computes; no randomised confidence exists in this
revision. -/
theorem analisis_determinista (fs : FeatureSet) (dbg : Bool) (r₁ r₂ : Resultado)
    (h₁ : Produce fs dbg r₁) (h₂ : Produce fs dbg r₂) :
    r₁ = r₂ ∧ r₁ = analizarHoja fs dbg := by
  obtain ⟨i, hi, rfl⟩ := h₁
  obtain ⟨j, hj, rfl⟩ := h₂
  obtain rfl : i = j := reglaDispara_unique hi hj
  refine ⟨rfl, ?_⟩
  obtain rfl : i = primeraRegla fs :=
    reglaDispara_unique hi (reglaDispara_primeraRegla fs)
  simp [analizarHoja, probabilidad, decidir_eq_primeraRegla]

/-- Witness for C8: two productions at `fsSana` with the debug flag off. -/
theorem analisis_determinista_witness :
    analizarHoja fsSana false = analizarHoja fsSana false ∧
      analizarHoja fsSana false = analizarHoja fsSana false :=
  analisis_determinista fsSana false (analizarHoja fsSana false)
    (analizarHoja fsSana false) (produce_analizarHoja fsSana false)
    (produce_analizarHoja fsSana false)

/-- C9: in every returned result, a true deformation flag forces the edge
description "irregular": the deformation threshold (texture above 0.30) is
strictly stronger than the irregular-edge threshold (texture above 0.25). -/
theorem deformaciones_implica_borde_irregular (fs : FeatureSet) (dbg : Bool)
    (h : (analizarHoja fs dbg).caracteristicasDetectadas.deformaciones = true) :
    (analizarHoja fs dbg).caracteristicasDetectadas.borde = "irregular" := by
  have ht : fs.textureScore > 30/100 := by
    simpa [analizarHoja, caracteristicas, decide_eq_true_eq] using h
  show (caracteristicas fs (decidir fs).colorPrincipal).borde = "irregular"
  simp only [caracteristicas]
  rw [if_pos (by linarith : fs.textureScore > 25/100)]

/-- Witness for C9 at `fsTextura`, whose texture score is 0.40. -/
theorem deformaciones_implica_borde_irregular_witness :
    (analizarHoja fsTextura true).caracteristicasDetectadas.borde = "irregular" :=
  deformaciones_implica_borde_irregular fsTextura true
    (by norm_num [analizarHoja, caracteristicas, fsTextura])

/-- C10: a valid FeatureSet exists — dark-spot area 0.08 in (0.06, 0.10],
no brown spots, healthy and strong-fungal rules failing — that is diagnosed
"Posible infección fúngica inicial" while its spot description reads "no
significativas": the moderate rule fires on dark spots alone, but the spot
description thresholds only the brown area. -/
theorem infeccion_inicial_sin_manchas :
    ∃ fs : FeatureSet, ValidFeatureSet fs ∧
      6/100 < fs.darkSpotArea ∧ fs.darkSpotArea ≤ 10/100 ∧
      fs.brownSpotArea ≤ 8/100 ∧ ¬ regla1Sana fs ∧ ¬ regla2Fungica fs ∧
      (analizarHoja fs false).estadoGeneral = "Posible infección fúngica inicial" ∧
      (analizarHoja fs false).caracteristicasDetectadas.manchas = "no significativas" := by
  refine ⟨fsOscura, by norm_num [ValidFeatureSet, fsOscura], ?_, ?_, ?_, ?_, ?_, ?_, ?_⟩ <;>
    norm_num [analizarHoja, caracteristicas, decidir, regla1Sana, regla2Fungica,
      regla3Moderada, saturationAvg, fsOscura, salidaRegla]

end CacaoLeaf
